import Mathlib

/-!
Verification of the shared-clipboard synchronization engine.

The definitions below are a shallow embedding of the Rust sources:
  * client/src/clipboard_manager.rs : content fingerprint, change/echo
    classifier, server-apply path;
  * client/src/main.rs : the poll (monitor) task, the websocket receive
    task and the backoff reconnect loop;
  * server/src/main.rs : the relay connect path for a new session.

Machine integers (u64 hashes and timestamps) are modelled as Nat; epoch
timestamps stay far below 2 to the 64th, so wraparound of the u64
addition in the grace-window comparison never occurs in scope.  The Rust
DefaultHasher (SipHash-1-3 with fixed keys) is a deterministic function
of the byte stream fed into it; every claim depends only on that
determinism and on which fields are fed in which order, so the mixing
rounds are modelled by a deterministic 64-bit FNV-style fold.
-/

namespace SharedClipboard

/-- One clipboard snapshot, mirroring struct ClipboardData of both the
client and the server (content, optional html, rtf, image, a content
type tag and a producer timestamp in seconds). -/
structure ClipboardData where
  content : String
  html : Option String
  rtf : Option String
  image : Option String
  content_type : String
  timestamp : Nat
deriving DecidableEq, Repr

/-- The websocket envelope, mirroring struct ClipboardMessage
(field msg_type serializes as the JSON field "type"). -/
structure ClipboardMessage where
  msg_type : String
  data : ClipboardData
deriving DecidableEq, Repr

/-! ## Content fingerprint (calculate_content_hash) -/

/-- Rust char predicate used by str::trim, restricted to the ASCII
whitespace that clipboard text actually carries. -/
def isWs (c : Char) : Bool :=
  c == ' ' || c == '\t' || c == '\n' || c == '\r'

/-- Model of Rust str::trim: drop leading and trailing whitespace. -/
def rustTrim (s : String) : String :=
  String.mk (((s.toList.dropWhile isWs).reverse.dropWhile isWs).reverse)

/-- Model of Rust str::starts_with(char). -/
def startsWithChar (s : String) (c : Char) : Bool :=
  match s.toList with
  | [] => false
  | a :: _ => a == c

/-- Model of Rust str::ends_with(char). -/
def endsWithChar (s : String) (c : Char) : Bool :=
  match s.toList.getLast? with
  | some a => a == c
  | none => false

/-- One 64-bit mixing step of the hash accumulator (deterministic model
of the DefaultHasher state update, FNV-1a style, reduced mod 2 ^ 64). -/
def hashStep (state b : Nat) : Nat :=
  ((state ^^^ b) * 1099511628211) % (2 ^ 64)

/-- Feeding a string into the accumulator: Rust str::hash writes the
bytes of the string followed by a 0xFF terminator byte. -/
def hashString (state : Nat) (s : String) : Nat :=
  hashStep (s.toList.foldl (fun a c => hashStep a c.toNat) state) 0xFF

/-- Initial accumulator state (the fixed DefaultHasher key state). -/
def hashInit : Nat := 0xcbf29ce484222325

/-- The canonical text component of calculate_content_hash: the trimmed
content when the trimmed value both starts with < and ends with >
(plain text that looks like a raw HTML fragment), the raw content
otherwise. -/
def canonical_text (data : ClipboardData) : String :=
  if startsWithChar (rustTrim data.content) '<'
      && endsWithChar (rustTrim data.content) '>' then
    rustTrim data.content
  else
    data.content

/-- clipboard_manager.rs lines 31-65, calculate_content_hash: hash the
canonical text; hash html only when present and its trimmed value
differs from the trimmed canonical text; then hash rtf and image when
present, in that fixed order. -/
def calculate_content_hash (data : ClipboardData) : Nat :=
  let normalized_content := canonical_text data
  let h0 := hashString hashInit normalized_content
  let h1 := match data.html with
    | some html =>
        if rustTrim html ≠ rustTrim normalized_content then
          hashString h0 html
        else h0
    | none => h0
  let h2 := match data.rtf with
    | some rtf => hashString h1 rtf
    | none => h1
  match data.image with
  | some image => hashString h2 image
  | none => h2

/-! ## Change/echo classifier state and entry points -/

/-- The classifier cache inside ClipboardManager: last accepted local
content hash, last server timestamp, last sent hash. -/
structure ClassifierState where
  last_content_hash : Option Nat
  last_server_timestamp : Option Nat
  last_sent_hash : Option Nat
deriving DecidableEq, Repr

/-- has_content_changed step 1: when the data came from the server and a
server timestamp is given, record it unconditionally. -/
def classifier_ts_update (st : ClassifierState) (from_server : Bool)
    (server_timestamp : Option Nat) : ClassifierState :=
  match from_server, server_timestamp with
  | true, some ts => { st with last_server_timestamp := some ts }
  | _, _ => st

/-- The grace-window test of has_content_changed: a local snapshot taken
at most 5 seconds after the last recorded server timestamp is presumed
to be an artifact of applying that server update. -/
def within_grace (st : ClassifierState) (data : ClipboardData) : Bool :=
  match st.last_server_timestamp with
  | some server_ts => decide (data.timestamp ≤ server_ts + 5)
  | none => false

/-- clipboard_manager.rs lines 68-112, has_content_changed: record the
server timestamp, reject an unchanged hash, reject a local change inside
the grace window, record the hash of an accepted local change.  Returns
the decision together with the updated state (the Rust method mutates
self). -/
def has_content_changed (st : ClassifierState) (data : ClipboardData)
    (from_server : Bool) (server_timestamp : Option Nat) :
    Bool × ClassifierState :=
  let current_hash := calculate_content_hash data
  let st1 := classifier_ts_update st from_server server_timestamp
  if st1.last_content_hash = some current_hash then
    (false, st1)
  else if !from_server && within_grace st1 data then
    (false, st1)
  else if !from_server then
    (true, { st1 with last_content_hash := some current_hash })
  else
    (true, st1)

/-- clipboard_manager.rs lines 115-119, mark_content_as_sent. -/
def mark_content_as_sent (st : ClassifierState) (data : ClipboardData) :
    ClassifierState :=
  { st with last_sent_hash := some (calculate_content_hash data) }

/-- clipboard_manager.rs lines 122-133, is_own_content_returned: true
exactly when last_sent_hash is set and equals the hash of data. -/
def is_own_content_returned (st : ClassifierState) (data : ClipboardData) :
    Bool :=
  match st.last_sent_hash with
  | some last_sent => decide (last_sent = calculate_content_hash data)
  | none => false

/-! ## Clipboard writes performed by set_clipboard_data_internal

set_clipboard_data_internal (clipboard_manager.rs lines 479-583) issues
a sequence of external clipboard writes; we model that sequence as a
trace of operations (the Linux code path: the standalone plain-text
write guarded by a non-empty content, the multi-format plain-text plus
html write when html is present, the rtf write when rtf is present and
the image write when the image string parses).  Write failures are only
logged in the source and never change the returned value, and the
from_server and server_timestamp parameters of the Rust function are
unused in its body. -/

/-- One external clipboard write. -/
inductive Op where
  | writeText (s : String)
  | writeMultiFormat (text html : String)
  | writeRtf (r : String)
  | writeImage (width height : Nat) (payload : String)
deriving DecidableEq, Repr

/-- An op carries a text/plain component exactly when it is the
standalone plain-text write or the multi-format write (copy_multi
offers MimeType Text alongside text/html). -/
def writesPlainText : Op → Bool
  | Op.writeText _ => true
  | Op.writeMultiFormat _ _ => true
  | Op.writeRtf _ => false
  | Op.writeImage _ _ _ => false

/-- Split a list at a separator character (model of str::split). -/
def splitCharList (c : Char) : List Char → List (List Char)
  | [] => [[]]
  | a :: rest =>
      let r := splitCharList c rest
      if a == c then [] :: r
      else
        match r with
        | g :: gs => (a :: g) :: gs
        | [] => [[a]]

/-- Model of str::splitn(3, c): at most three parts, the third keeping
any further separators. -/
def splitn3 (c : Char) (s : String) : List String :=
  match splitCharList c s.toList with
  | [] => []
  | [a] => [String.mk a]
  | [a, b] => [String.mk a, String.mk b]
  | a :: b :: rest => [String.mk a, String.mk b,
      String.mk (List.intercalate [c] rest)]

/-- The image-string parse of set_clipboard_data_internal: the format is
width:height:base64payload; the write happens only when there are three
parts and both dimensions parse as usize (base64 decoding failures only
log an error and are not modelled separately). -/
def parseImage (img : String) : Option (Nat × Nat × String) :=
  match splitn3 ':' img with
  | [w, h, payload] =>
      match w.toNat?, h.toNat? with
      | some width, some height => some (width, height, payload)
      | _, _ => none
  | _ => none

/-- clipboard_manager.rs lines 479-583, set_clipboard_data_internal as
the trace of clipboard writes it issues (Linux path), in source order:
plain text only when content is non-empty, then the multi-format
text-plus-html write when html is present, then rtf, then the parsed
image.  The Rust function always returns Ok. -/
def set_clipboard_data_internal_ops (data : ClipboardData) : List Op :=
  (if data.content = "" then [] else [Op.writeText data.content])
  ++ (match data.html with
      | some h => [Op.writeMultiFormat data.content h]
      | none => [])
  ++ (match data.rtf with
      | some r => [Op.writeRtf r]
      | none => [])
  ++ (match data.image with
      | some img =>
          match parseImage img with
          | some (w, h, payload) => [Op.writeImage w h payload]
          | none => []
      | none => [])

/-- The local clipboard contents seen by the capability interface, one
slot per format. -/
structure LocalClipboard where
  text : String
  html : Option String
  rtf : Option String
  image : Option (Nat × Nat × String)
deriving DecidableEq, Repr

/-- Effect of one write op on the local clipboard (each op writes
exactly the formats it carries). -/
def applyOp (clip : LocalClipboard) : Op → LocalClipboard
  | Op.writeText s => { clip with text := s }
  | Op.writeMultiFormat t h => { clip with text := t, html := some h }
  | Op.writeRtf r => { clip with rtf := some r }
  | Op.writeImage w h p => { clip with image := some (w, h, p) }

/-- Effect of a trace of write ops on the local clipboard. -/
def applyOps (clip : LocalClipboard) : List Op → LocalClipboard
  | [] => clip
  | op :: rest => applyOps (applyOp clip op) rest

/-- clipboard_manager.rs lines 443-476, set_clipboard_data_from_server:
write the snapshot (always Ok), then re-read the actual clipboard
content; on a successful re-read record the hash of the re-read data,
on a read failure fall back to the hash of the original snapshot; in
both cases record the message timestamp.  The re-read is an external
read, passed in as readBack.  Returns the result, the updated
classifier state and the trace of writes. -/
def set_clipboard_data_from_server (st : ClassifierState)
    (data : ClipboardData) (readBack : Except String ClipboardData) :
    Except String Unit × ClassifierState × List Op :=
  let ops := set_clipboard_data_internal_ops data
  let st2 := match readBack with
    | Except.ok actual =>
        { st with
            last_content_hash := some (calculate_content_hash actual),
            last_server_timestamp := some data.timestamp }
    | Except.error _ =>
        { st with
            last_content_hash := some (calculate_content_hash data),
            last_server_timestamp := some data.timestamp }
  (Except.ok (), st2, ops)

/-! ## Client websocket receive task (main.rs lines 266-306) -/

/-- Handling of one parsed text frame by websocket_task: only
clipboard_update messages are processed; an echo of own sent content is
dropped with no side effect; otherwise the snapshot is applied through
set_clipboard_data_from_server. -/
def websocket_handle_text (st : ClassifierState) (msg : ClipboardMessage)
    (readBack : Except String ClipboardData) : ClassifierState × List Op :=
  if msg.msg_type = "clipboard_update" then
    if is_own_content_returned st msg.data then
      (st, [])
    else
      let r := set_clipboard_data_from_server st msg.data readBack
      (r.2.1, r.2.2)
  else
    (st, [])

/-- One arm of the select loop of websocket_task: an incoming parsed
text frame (carrying the external re-read result its application will
use), an unparseable or non-text frame (skipped), a close frame, a
transport error, or a notification that the endpoint URL changed. -/
inductive WsLoopEvent where
  | textUpdate (m : ClipboardMessage) (readBack : Except String ClipboardData)
  | badFrame
  | closeFrame
  | wsError
  | urlChanged

/-- Why the websocket_task loop ended. -/
inductive SessionEnd where
  | closedByServer
  | transportError
  | urlChange
deriving DecidableEq, Repr

/-- The websocket_task select loop: process events in order until a
close frame, a transport error or a URL change breaks the loop. -/
def websocket_task_run (st : ClassifierState) :
    List WsLoopEvent → ClassifierState × Option SessionEnd
  | [] => (st, none)
  | e :: rest =>
      match e with
      | WsLoopEvent.textUpdate m rb =>
          websocket_task_run (websocket_handle_text st m rb).1 rest
      | WsLoopEvent.badFrame => websocket_task_run st rest
      | WsLoopEvent.closeFrame => (st, some SessionEnd.closedByServer)
      | WsLoopEvent.wsError => (st, some SessionEnd.transportError)
      | WsLoopEvent.urlChanged => (st, some SessionEnd.urlChange)

/-! ## Reconnect loop (main.rs lines 331-353) -/

/-- Outcome of one start() attempt: connectFailed when the websocket
connection could not be established (start returns Err before the
session becomes active); activeEnded when a session was established and
later ended, for any reason (close, transport error or URL change all
make the task loops break and start return Ok). -/
inductive AttemptOutcome where
  | connectFailed
  | activeEnded (e : SessionEnd)
deriving DecidableEq, Repr

/-- run_with_reconnect resets the delay to 1 s exactly when start
returned Ok. -/
def outcomeIsOk : AttemptOutcome → Bool
  | AttemptOutcome.connectFailed => false
  | AttemptOutcome.activeEnded _ => true

/-- main.rs lines 331-353, run_with_reconnect: per iteration, reset the
delay to 1 s on Ok, sleep the current delay, then double it capped at
60 s.  Given the current delay and the sequence of attempt outcomes,
this returns the sleep performed after each attempt (the wait before
the following attempt). -/
def reconnectDelays (d : Nat) : List AttemptOutcome → List Nat
  | [] => []
  | o :: rest =>
      let d2 := if outcomeIsOk o then 1 else d
      d2 :: reconnectDelays (min (d2 * 2) 60) rest

/-- main.rs line 134: the websocket URL used by an attempt is derived
from the value of the shared URL cell read at that moment. -/
def ws_url (current_url : String) : String :=
  "ws://" ++ ((current_url.replace "http://" "").replace "https://" "")
    ++ "/ws"

/-! ## Poll (monitor) task (main.rs lines 160-261) -/

/-- State threaded through monitor_task ticks: the shared classifier
and the Instant of the last successful post, in milliseconds. -/
structure MonitorState where
  cls : ClassifierState
  last_post : Option Nat
deriving DecidableEq, Repr

/-- Minimum inter-push interval (MIN_POST_INTERVAL), in milliseconds. -/
def MIN_POST_INTERVAL : Nat := 200

/-- Result of one monitor tick: the new state and whether the snapshot
was posted to the relay. -/
structure TickResult where
  st : MonitorState
  posted : Bool
deriving DecidableEq, Repr

/-- One successful-read tick of monitor_task: classify the snapshot; if
accepted, mark it as sent, then apply the rate limit - a tick within
MIN_POST_INTERVAL of the previous post skips the post (continue) while
keeping the classifier updates; otherwise record the post time and
post. -/
def monitor_tick (ms : MonitorState) (now : Nat) (data : ClipboardData) :
    TickResult :=
  let step := has_content_changed ms.cls data false none
  if step.1 then
    let cls2 := mark_content_as_sent step.2 data
    match ms.last_post with
    | some prev =>
        if now - prev < MIN_POST_INTERVAL then
          { st := { cls := cls2, last_post := ms.last_post }, posted := false }
        else
          { st := { cls := cls2, last_post := some now }, posted := true }
    | none =>
        { st := { cls := cls2, last_post := some now }, posted := true }
  else
    { st := { cls := step.2, last_post := ms.last_post }, posted := false }

/-- The posted flags of a sequence of monitor ticks, each tick given as
the pair of its Instant and the snapshot read. -/
def runTicksPosted : MonitorState → List (Nat × ClipboardData) → List Bool
  | _, [] => []
  | ms, (now, d) :: rest =>
      let r := monitor_tick ms now d
      r.posted :: runTicksPosted r.st rest

/-! ## Relay connect path (server/src/main.rs lines 87-155) -/

/-- The relay state handle_client sees: the cached snapshot and the
registered session ids. -/
structure RelayState where
  current_snapshot : Option ClipboardData
  sessions : List String
deriving DecidableEq, Repr

/-- Wrapping a snapshot for delivery (both the immediate send and the
broadcast relay wrap it as a clipboard_update message). -/
def wrap_update (d : ClipboardData) : ClipboardMessage :=
  ⟨"clipboard_update", d⟩

/-- server/src/main.rs lines 87-155, handle_client connect phase:
register the session id, send the cached snapshot (when set) directly
to the new session before subscribing it to the broadcast stream, then
deliver the subsequent fan-out publications in order.  Returns the
immediate messages, the fan-out deliveries and the new relay state. -/
def handle_client_connect (rs : RelayState) (client_id : String)
    (fanout_after : List ClipboardData) :
    List ClipboardMessage × List ClipboardMessage × RelayState :=
  let rs2 := { rs with sessions := client_id :: rs.sessions }
  let immediate := match rs.current_snapshot with
    | some d => [wrap_update d]
    | none => []
  (immediate, fanout_after.map wrap_update, rs2)

/-- Everything the new session receives, in order: the immediate direct
send happens on the socket before the outbound relay task starts, so it
precedes every fan-out delivery. -/
def session_deliveries
    (r : List ClipboardMessage × List ClipboardMessage × RelayState) :
    List ClipboardMessage :=
  r.1 ++ r.2.1

/-! ## Helper lemmas and concrete example values -/

/-- Local-origin reduction of has_content_changed: no timestamp is
recorded, and the grace window applies. -/
theorem has_content_changed_local (st : ClassifierState) (data : ClipboardData) :
    has_content_changed st data false none =
      if st.last_content_hash = some (calculate_content_hash data) then
        (false, st)
      else if within_grace st data then
        (false, st)
      else
        (true, { st with last_content_hash := some (calculate_content_hash data) }) :=
  rfl

/-- An accepted local change records its hash. -/
theorem local_accept_hash (st : ClassifierState) (data : ClipboardData)
    (h : (has_content_changed st data false none).1 = true) :
    (has_content_changed st data false none).2.last_content_hash
      = some (calculate_content_hash data) := by
  rw [has_content_changed_local] at h ⊢
  by_cases h1 : st.last_content_hash = some (calculate_content_hash data)
  · rw [if_pos h1] at h
    simp at h
  · rw [if_neg h1] at h ⊢
    by_cases h2 : within_grace st data = true
    · rw [if_pos h2] at h
      simp at h
    · rw [if_neg h2] at h ⊢

/-- Example snapshot: a plain local text read. -/
def exSnapA : ClipboardData := ⟨"hello", none, none, none, "text", 100⟩

/-- Example snapshot with different content. -/
def exSnapB : ClipboardData := ⟨"world", none, none, none, "text", 100⟩

/-- Plain text that is itself an HTML fragment, with surrounding
whitespace. -/
def exSnapHtmlText : ClipboardData :=
  ⟨" <b>x</b> ", none, none, none, "text", 100⟩

/-- The same fragment without the whitespace. -/
def exSnapHtmlTrim : ClipboardData :=
  ⟨"<b>x</b>", none, none, none, "text", 100⟩

/-- The freshly constructed classifier state (ClipboardManager::new). -/
def exStateEmpty : ClassifierState := ⟨none, none, none⟩

/-- A classifier state that has already accepted exSnapA. -/
def exStateDup : ClassifierState :=
  ⟨some (calculate_content_hash exSnapA), none, none⟩

/-- The OS-transformed result of re-reading exSnapA after a write
(newline normalization appends a line break). -/
def exSnapActual : ClipboardData :=
  ⟨"hello\n", none, none, none, "text", 100⟩

/-! ## C1: grace-window loop-breaker -/

/-- Claim C1: with a recorded remote timestamp T and a snapshot whose
fingerprint differs from the last accepted one, a local classify call
returns false exactly on snapshots with timestamp at most T + 5 and
true on snapshots with timestamp greater than T + 5. -/
theorem grace_window_loop_breaker (st : ClassifierState)
    (data : ClipboardData) (T : Nat)
    (hts : st.last_server_timestamp = some T)
    (hfp : st.last_content_hash ≠ some (calculate_content_hash data)) :
    (has_content_changed st data false none).1
      = decide (T + 5 < data.timestamp) := by
  rw [has_content_changed_local, if_neg hfp]
  simp only [within_grace, hts]
  by_cases h : data.timestamp ≤ T + 5
  · rw [if_pos (by simpa using h)]
    simp
    omega
  · rw [if_neg (by simpa using h)]
    simp
    omega

/-- Witness for C1 at a concrete remote-anchored state. -/
theorem grace_window_loop_breaker_witness :
    (has_content_changed ⟨none, some 100, none⟩ exSnapA false none).1
      = decide (100 + 5 < exSnapA.timestamp) :=
  grace_window_loop_breaker ⟨none, some 100, none⟩ exSnapA 100 rfl (by decide)

/-! ## C2: fingerprint canonical equality -/

/-- Claim C2: two snapshots with the same canonical text and equal
html, rtf and image fields have the same fingerprint. -/
theorem fingerprint_canonical_eq (A B : ClipboardData)
    (hc : canonical_text A = canonical_text B)
    (hh : A.html = B.html) (hr : A.rtf = B.rtf) (hi : A.image = B.image) :
    calculate_content_hash A = calculate_content_hash B := by
  simp only [calculate_content_hash, hc, hh, hr, hi]

/-- Witness for C2: the whitespace-padded HTML fragment and its trimmed
form share a fingerprint. -/
theorem fingerprint_canonical_eq_witness :
    calculate_content_hash exSnapHtmlText = calculate_content_hash exSnapHtmlTrim :=
  fingerprint_canonical_eq exSnapHtmlText exSnapHtmlTrim rfl rfl rfl rfl

/-! ## C4: echo round-trip -/

/-- Claim C4: after mark_content_as_sent A the snapshot A is recognized
as an echo, any snapshot with a different fingerprint is not, and no
snapshot is an echo while last_sent_hash is unset. -/
theorem echo_round_trip (st st2 : ClassifierState) (A B : ClipboardData)
    (hne : calculate_content_hash B ≠ calculate_content_hash A)
    (hunset : st2.last_sent_hash = none) :
    is_own_content_returned (mark_content_as_sent st A) A = true
    ∧ is_own_content_returned (mark_content_as_sent st A) B = false
    ∧ is_own_content_returned st2 B = false := by
  refine ⟨?_, ?_, ?_⟩
  · simp [is_own_content_returned, mark_content_as_sent]
  · simp [is_own_content_returned, mark_content_as_sent]
    exact Ne.symm hne
  · simp [is_own_content_returned, hunset]

/-- Witness for C4 with two concrete snapshots of distinct fingerprints
and the fresh state. -/
theorem echo_round_trip_witness :
    is_own_content_returned (mark_content_as_sent exStateEmpty exSnapA) exSnapA = true
    ∧ is_own_content_returned (mark_content_as_sent exStateEmpty exSnapA) exSnapB = false
    ∧ is_own_content_returned exStateEmpty exSnapB = false :=
  echo_round_trip exStateEmpty exStateEmpty exSnapA exSnapB (by decide) rfl

/-! ## C5: accept-then-dedup (corrected) -/

/-- Counterexample to C5 as stated: in a classifier state that has
already accepted exSnapA (a state reached by any earlier accepted local
change of the same content), the first of the two immediate
classify_change calls returns false, not true, so the claim fails for
this state. -/
theorem accept_then_dedup_counterexample :
    (has_content_changed exStateDup exSnapA false none).1 = false := by
  decide

/-- Claim C5 as amended: whenever the first local classify_change call
accepts a snapshot, an immediately repeated call on the same snapshot
with no intervening accepted change returns false. -/
theorem accept_then_dedup (st : ClassifierState) (data : ClipboardData)
    (h : (has_content_changed st data false none).1 = true) :
    (has_content_changed
        (has_content_changed st data false none).2 data false none).1 = false := by
  have hh := local_accept_hash st data h
  rw [has_content_changed_local ((has_content_changed st data false none).2) data,
    if_pos hh]

/-- Witness for the amended C5 starting from the fresh state, where the
first call does accept. -/
theorem accept_then_dedup_witness :
    (has_content_changed
        (has_content_changed exStateEmpty exSnapA false none).2
        exSnapA false none).1 = false :=
  accept_then_dedup exStateEmpty exSnapA (by decide)

/-! ## C3: write-then-read-back on remote apply -/

/-- Claim C3: a non-echo clipboard_update message that is applied with
a successful re-read leaves the classifier holding the fingerprint of
the re-read content (not necessarily of the original snapshot) and the
timestamp of the message. -/
theorem write_then_read_back (st : ClassifierState) (msg : ClipboardMessage)
    (actual : ClipboardData)
    (hkind : msg.msg_type = "clipboard_update")
    (hecho : is_own_content_returned st msg.data = false) :
    (websocket_handle_text st msg (Except.ok actual)).1.last_content_hash
      = some (calculate_content_hash actual)
    ∧ (websocket_handle_text st msg (Except.ok actual)).1.last_server_timestamp
      = some msg.data.timestamp := by
  simp [websocket_handle_text, hkind, hecho, set_clipboard_data_from_server]

/-- Witness for C3: the re-read content differs from the snapshot (the
OS appended a newline) and it is the re-read fingerprint that is
recorded. -/
theorem write_then_read_back_witness :
    (websocket_handle_text exStateEmpty (wrap_update exSnapA)
        (Except.ok exSnapActual)).1.last_content_hash
      = some (calculate_content_hash exSnapActual)
    ∧ (websocket_handle_text exStateEmpty (wrap_update exSnapA)
        (Except.ok exSnapActual)).1.last_server_timestamp
      = some (wrap_update exSnapA).data.timestamp :=
  write_then_read_back exStateEmpty (wrap_update exSnapA) exSnapActual rfl rfl

/-! ## C6: reconnect backoff schedule -/

/-- All delays stay at or below the 60 s cap once the current delay
does. -/
theorem reconnectDelays_cap (outcomes : List AttemptOutcome) :
    ∀ d : Nat, d ≤ 60 →
      (reconnectDelays d outcomes).all (fun x => decide (x ≤ 60)) = true := by
  induction outcomes with
  | nil =>
      intro d _
      rfl
  | cons o rest ih =>
      intro d hd
      have hd2 : (if outcomeIsOk o then 1 else d) ≤ 60 := by
        cases h : outcomeIsOk o <;> simp [hd]
      simp only [reconnectDelays, List.all_cons, Bool.and_eq_true, decide_eq_true_eq]
      exact ⟨hd2, ih _ (Nat.min_le_right _ _)⟩

/-- Claim C6: three consecutive connect failures from the initial state
sleep 1 s, 2 s, 4 s; a failure sleeps the current delay and doubles it
capped at 60 s; any attempt that reached Active and later ended (even
cleanly) resets the next delay to 1 s; and no delay ever exceeds the
60 s cap. -/
theorem reconnect_backoff (d : Nat) (e : SessionEnd)
    (rest outcomes : List AttemptOutcome) (hd : d ≤ 60) :
    reconnectDelays 1
        [AttemptOutcome.connectFailed, AttemptOutcome.connectFailed,
          AttemptOutcome.connectFailed] = [1, 2, 4]
    ∧ reconnectDelays d (AttemptOutcome.connectFailed :: rest)
        = d :: reconnectDelays (min (d * 2) 60) rest
    ∧ reconnectDelays d (AttemptOutcome.activeEnded e :: rest)
        = 1 :: reconnectDelays 2 rest
    ∧ (reconnectDelays d outcomes).all (fun x => decide (x ≤ 60)) = true :=
  ⟨by decide, rfl, rfl, reconnectDelays_cap outcomes d hd⟩

/-- Witness for C6 at concrete delay 3 and concrete outcome lists. -/
theorem reconnect_backoff_witness :
    reconnectDelays 1
        [AttemptOutcome.connectFailed, AttemptOutcome.connectFailed,
          AttemptOutcome.connectFailed] = [1, 2, 4]
    ∧ reconnectDelays 3 (AttemptOutcome.connectFailed :: [])
        = 3 :: reconnectDelays (min (3 * 2) 60) []
    ∧ reconnectDelays 3 (AttemptOutcome.activeEnded SessionEnd.closedByServer :: [])
        = 1 :: reconnectDelays 2 []
    ∧ (reconnectDelays 3 [AttemptOutcome.connectFailed]).all
        (fun x => decide (x ≤ 60)) = true :=
  reconnect_backoff 3 SessionEnd.closedByServer [] [AttemptOutcome.connectFailed]
    (by decide)

/-! ## C7: URL-change termination path (corrected) -/

/-- Counterexample to C7 as stated: after a session torn down by a URL
change, the reconnect loop still sleeps the reset 1 s backoff delay
before the next attempt, so the new connection attempt does not start
immediately. -/
theorem url_change_not_immediate :
    reconnectDelays 1 [AttemptOutcome.activeEnded SessionEnd.urlChange] = [1]
    ∧ (1 : Nat) ≠ 0 :=
  ⟨rfl, by decide⟩

/-- Claim C7 as amended: a URL change while Active breaks the websocket
loop at once (before any further event, without a transport error and
without touching the classifier state); the reconnect loop treats this
end like a clean session end, so the backoff delay is reset to 1 s (it
is not grown by this termination) and the next attempt starts after
that 1 s sleep rather than immediately. -/
theorem url_change_teardown (st : ClassifierState) (rest : List WsLoopEvent)
    (rest2 : List AttemptOutcome) (d : Nat) :
    websocket_task_run st (WsLoopEvent.urlChanged :: rest)
        = (st, some SessionEnd.urlChange)
    ∧ outcomeIsOk (AttemptOutcome.activeEnded SessionEnd.urlChange) = true
    ∧ reconnectDelays d (AttemptOutcome.activeEnded SessionEnd.urlChange :: rest2)
        = 1 :: reconnectDelays 2 rest2 :=
  ⟨rfl, rfl, rfl⟩

/-! ## C8: late-joiner delivery -/

/-- Claim C8: a session connecting while current_snapshot is set
receives exactly one immediate message, equal to that snapshot, and it
precedes every fan-out delivery. -/
theorem late_joiner_delivery (rs : RelayState) (cid : String)
    (fans : List ClipboardData) (s : ClipboardData)
    (h : rs.current_snapshot = some s) :
    (handle_client_connect rs cid fans).1 = [wrap_update s]
    ∧ session_deliveries (handle_client_connect rs cid fans)
        = wrap_update s :: fans.map wrap_update := by
  simp [handle_client_connect, session_deliveries, h]

/-- Witness for C8: a relay already holding exSnapA, a new session and
one later fan-out publication. -/
theorem late_joiner_delivery_witness :
    (handle_client_connect ⟨some exSnapA, []⟩ "s1" [exSnapB]).1
      = [wrap_update exSnapA]
    ∧ session_deliveries (handle_client_connect ⟨some exSnapA, []⟩ "s1" [exSnapB])
      = wrap_update exSnapA :: [exSnapB].map wrap_update :=
  late_joiner_delivery ⟨some exSnapA, []⟩ "s1" [exSnapB] exSnapA rfl

/-! ## C9: remote clear as a silent no-op write (corrected) -/

/-- A trace with no plain-text-carrying op leaves the plain-text slot
of the clipboard untouched. -/
theorem applyOps_text_of_no_plain (ops : List Op) :
    ∀ clip : LocalClipboard,
      (∀ op ∈ ops, writesPlainText op = false) →
      (applyOps clip ops).text = clip.text := by
  induction ops with
  | nil =>
      intro clip _
      rfl
  | cons op rest ih =>
      intro clip h
      have hop := h op (List.mem_cons_self _ _)
      have hrest : ∀ o ∈ rest, writesPlainText o = false :=
        fun o ho => h o (List.mem_cons_of_mem _ ho)
      cases op with
      | writeText s => simp [writesPlainText] at hop
      | writeMultiFormat t hh => simp [writesPlainText] at hop
      | writeRtf r =>
          simpa [applyOps, applyOp] using ih _ hrest
      | writeImage w hh p =>
          simpa [applyOps, applyOp] using ih _ hrest

/-- An empty-content snapshot that carries html. -/
def exClearHtml : ClipboardData := ⟨"", some "<b>hi</b>", none, none, "html", 100⟩

/-- A clipboard that held text before the remote message arrived. -/
def exPrevClip : LocalClipboard := ⟨"previous", none, none, none⟩

/-- Counterexample to C9 as stated: an empty-content snapshot that
carries html makes set_clipboard_data_internal issue the multi-format
write, which carries a text/plain component, so a plain-text clipboard
write does happen and it clears the plain-text slot. -/
theorem remote_clear_writes_plain_text :
    (set_clipboard_data_internal_ops exClearHtml).any writesPlainText = true
    ∧ (applyOps exPrevClip (set_clipboard_data_internal_ops exClearHtml)).text
        = "" :=
  ⟨rfl, rfl⟩

/-- Claim C9 as amended: for a remote snapshot whose content is empty
and whose html field is absent, the apply path issues no write carrying
a plain-text component (the standalone plain-text write is guarded by a
non-empty content and the multi-format write needs html), leaves the
plain-text slot of the clipboard unchanged, still returns Ok, and still
records the message timestamp and a content hash (that of the re-read
content, or of the snapshot itself when the re-read fails). -/
theorem remote_clear_silent (st : ClassifierState) (clip : LocalClipboard)
    (data : ClipboardData) (readBack : Except String ClipboardData)
    (hc : data.content = "") (hh : data.html = none) :
    (∀ op ∈ set_clipboard_data_internal_ops data, writesPlainText op = false)
    ∧ (applyOps clip (set_clipboard_data_internal_ops data)).text = clip.text
    ∧ (set_clipboard_data_from_server st data readBack).1 = Except.ok ()
    ∧ (set_clipboard_data_from_server st data readBack).2.1.last_server_timestamp
        = some data.timestamp
    ∧ (set_clipboard_data_from_server st data readBack).2.1.last_content_hash
        = some (calculate_content_hash
            (match readBack with
             | Except.ok actual => actual
             | Except.error _ => data)) := by
  have hops : ∀ op ∈ set_clipboard_data_internal_ops data,
      writesPlainText op = false := by
    intro op hop
    simp only [set_clipboard_data_internal_ops, hc, hh, if_pos, List.nil_append] at hop
    rcases List.mem_append.mp hop with h1 | h2
    · cases hr : data.rtf with
      | none => rw [hr] at h1; simp at h1
      | some r =>
          rw [hr] at h1
          simp at h1
          rw [h1]
          rfl
    · cases hi : data.image with
      | none => rw [hi] at h2; simp at h2
      | some img =>
          rw [hi] at h2
          dsimp only at h2
          cases hp : parseImage img with
          | none => rw [hp] at h2; simp at h2
          | some triple =>
              obtain ⟨w, hgt, payload⟩ := triple
              rw [hp] at h2
              simp at h2
              rw [h2]
              rfl
  refine ⟨hops, applyOps_text_of_no_plain _ clip hops, ?_, ?_, ?_⟩
  · cases readBack <;> rfl
  · cases readBack <;> rfl
  · cases readBack <;> rfl

/-- An empty clear snapshot with no optional fields. -/
def exClearPlain : ClipboardData := ⟨"", none, none, none, "text", 100⟩

/-- Witness for the amended C9: a plain clear snapshot applied over a
clipboard holding text, with a successful re-read returning that same
old text. -/
theorem remote_clear_silent_witness :
    (∀ op ∈ set_clipboard_data_internal_ops exClearPlain, writesPlainText op = false)
    ∧ (applyOps exPrevClip (set_clipboard_data_internal_ops exClearPlain)).text
        = exPrevClip.text
    ∧ (set_clipboard_data_from_server exStateEmpty exClearPlain
        (Except.ok exSnapA)).1 = Except.ok ()
    ∧ (set_clipboard_data_from_server exStateEmpty exClearPlain
        (Except.ok exSnapA)).2.1.last_server_timestamp
        = some exClearPlain.timestamp
    ∧ (set_clipboard_data_from_server exStateEmpty exClearPlain
        (Except.ok exSnapA)).2.1.last_content_hash
        = some (calculate_content_hash
            (match (Except.ok exSnapA : Except String ClipboardData) with
             | Except.ok actual => actual
             | Except.error _ => exClearPlain)) :=
  remote_clear_silent exStateEmpty exPrevClip exClearPlain (Except.ok exSnapA)
    rfl rfl

/-! ## C10: a rate-limited local change is permanently lost -/

/-- A tick whose snapshot hash equals the cached hash does nothing. -/
theorem monitor_tick_unchanged (ms : MonitorState) (now : Nat)
    (d : ClipboardData)
    (h : ms.cls.last_content_hash = some (calculate_content_hash d)) :
    monitor_tick ms now d = ⟨ms, false⟩ := by
  have hstep : has_content_changed ms.cls d false none = (false, ms.cls) := by
    rw [has_content_changed_local, if_pos h]
  simp [monitor_tick, hstep]

/-- While the cached hash matches every polled snapshot, no tick
posts. -/
theorem runTicksPosted_unchanged (later : List (Nat × ClipboardData)) :
    ∀ (ms : MonitorState) (h0 : Nat),
      ms.cls.last_content_hash = some h0 →
      (∀ p ∈ later, calculate_content_hash p.2 = h0) →
      runTicksPosted ms later = later.map (fun _ => false) := by
  induction later with
  | nil =>
      intro ms h0 _ _
      rfl
  | cons p rest ih =>
      intro ms h0 hms hall
      obtain ⟨now, d⟩ := p
      have hd : calculate_content_hash d = h0 := hall _ (List.mem_cons_self _ _)
      have htick := monitor_tick_unchanged ms now d (by rw [hms, hd])
      simp only [runTicksPosted, htick]
      exact congrArg (List.cons false)
        (ih ms h0 hms (fun q hq => hall q (List.mem_cons_of_mem _ hq)))

/-- Claim C10: a local change accepted within MIN_POST_INTERVAL of the
previous post is not posted, yet the classifier has already recorded
its hash (and marked it sent), so every later poll reading content of
the same fingerprint posts nothing either. -/
theorem rate_limited_change_lost (ms : MonitorState) (now prev : Nat)
    (data : ClipboardData) (later : List (Nat × ClipboardData))
    (h1 : (has_content_changed ms.cls data false none).1 = true)
    (h2 : ms.last_post = some prev)
    (h3 : now - prev < MIN_POST_INTERVAL)
    (h4 : ∀ p ∈ later,
        calculate_content_hash p.2 = calculate_content_hash data) :
    (monitor_tick ms now data).posted = false
    ∧ (monitor_tick ms now data).st.cls.last_content_hash
        = some (calculate_content_hash data)
    ∧ (monitor_tick ms now data).st.cls.last_sent_hash
        = some (calculate_content_hash data)
    ∧ runTicksPosted (monitor_tick ms now data).st later
        = later.map (fun _ => false) := by
  have htick : monitor_tick ms now data =
      ⟨⟨mark_content_as_sent (has_content_changed ms.cls data false none).2 data,
        ms.last_post⟩, false⟩ := by
    simp [monitor_tick, h1, h2, h3]
  have hhash : (mark_content_as_sent
      (has_content_changed ms.cls data false none).2 data).last_content_hash
      = some (calculate_content_hash data) := by
    simp [mark_content_as_sent, local_accept_hash ms.cls data h1]
  refine ⟨by rw [htick], ?_, ?_, ?_⟩
  · rw [htick]
    exact hhash
  · rw [htick]
    rfl
  · rw [htick]
    exact runTicksPosted_unchanged later _ _ hhash h4

/-- Witness for C10: a change accepted 100 ms after the previous post
is dropped, and a later poll of the same content stays silent. -/
theorem rate_limited_change_lost_witness :
    (monitor_tick ⟨exStateEmpty, some 1000⟩ 1100 exSnapA).posted = false
    ∧ (monitor_tick ⟨exStateEmpty, some 1000⟩ 1100 exSnapA).st.cls.last_content_hash
        = some (calculate_content_hash exSnapA)
    ∧ (monitor_tick ⟨exStateEmpty, some 1000⟩ 1100 exSnapA).st.cls.last_sent_hash
        = some (calculate_content_hash exSnapA)
    ∧ runTicksPosted (monitor_tick ⟨exStateEmpty, some 1000⟩ 1100 exSnapA).st
        [(1200, exSnapA)]
        = [(1200, exSnapA)].map (fun _ => false) :=
  rate_limited_change_lost ⟨exStateEmpty, some 1000⟩ 1100 1000 exSnapA
    [(1200, exSnapA)] (by decide) rfl (by decide) (by decide)

end SharedClipboard
